import Mathlib

/-
  Shallow embedding of the run-orchestration core of the agentic SDLC
  assistant (Python sources under src/).  Pydantic models become Lean
  structures, the LangGraph TypedDict state becomes a structure, node
  functions become pure functions over the state plus an explicit record
  of external-call outcomes, the SQLite store becomes an association-list
  database, and python floats that only ever hold exact decimal scores
  and ratios are modelled by Rat.  ISO-8601 timestamps are modelled by
  their linear order only (Nat).
-/

namespace AgenticSDLC

-- ── src/schemas/ticket.py ──────────────────────────────────────────────────────

structure JiraAttachment where
  filename : String
  content_type : String
  size_bytes : Nat
  url : Option String
deriving DecidableEq

/-- TicketContext from src/schemas/ticket.py.  `created_at` / `updated_at`
are optional datetimes (modelled by Nat); `raw_jira_data` is the raw Jira
payload kept for audit, modelled by its textual form. -/
structure TicketContext where
  ticket_id : String
  title : String
  description : String
  acceptance_criteria : Option String
  labels : List String
  priority : Option String
  story_points : Option Rat
  reporter : Option String
  assignee : Option String
  status : String
  attachments : List JiraAttachment
  linked_issues : List String
  components : List String
  created_at : Option Nat
  updated_at : Option Nat
  raw_jira_data : Option String
deriving DecidableEq

-- ── src/schemas/completeness.py ────────────────────────────────────────────────

inductive CompletenessDecision where
  | complete
  | incomplete
deriving DecidableEq

structure MissingField where
  field_name : String
  severity : String
  description : String
deriving DecidableEq

structure CompletenessResult where
  ticket_id : String
  decision : CompletenessDecision
  completeness_score : Rat
  missing_fields : List MissingField
  clarification_questions : List String
  assumptions_summary : Option String
  jira_comment_posted : Bool
  jira_comment_id : Option String
  raw_llm_response : Option String
deriving DecidableEq

-- ── src/schemas/repo.py ────────────────────────────────────────────────────────

structure FileAnalysis where
  file_path : String
  language : Option String
  relevance_score : Rat
  relevance_reason : String
  summary : Option String
  functions_detected : List String
  classes_detected : List String
deriving DecidableEq

structure RepoContext where
  repo_owner : String
  repo_name : String
  default_branch : String
  primary_language : Option String
  directory_summary : String
  relevant_files : List FileAnalysis
  existing_test_files : List String
  dependency_hints : List String
  code_style_hints : Option String
  impacted_modules : List String
  raw_mcp_outputs : List String
deriving DecidableEq

-- ── src/schemas/confluence.py ──────────────────────────────────────────────────

structure ConfluencePage where
  page_id : String
  title : String
  url : String
  space_key : String
  content_excerpt : String
  relevance_reason : String
deriving DecidableEq

structure ConfluenceContext where
  pages_found : List ConfluencePage
  total_pages_searched : Nat
  search_queries_used : List String
  summary : String
  doc_update_suggestions : List String
deriving DecidableEq

-- ── src/schemas/plan.py ────────────────────────────────────────────────────────

inductive RiskLevel where
  | low
  | medium
  | high
deriving DecidableEq

structure ImplementationStep where
  step_number : Nat
  title : String
  description : String
  affected_files : List String
  estimated_complexity : String
deriving DecidableEq

structure ImplementationPlan where
  ticket_id : String
  summary : String
  impacted_components : List String
  implementation_steps : List ImplementationStep
  risk_level : RiskLevel
  risk_rationale : String
  deployment_considerations : List String
  breaking_changes : Bool
  database_migrations_required : Bool
  confidence_score : Rat
  assumptions : List String
  raw_llm_response : Option String
deriving DecidableEq

-- ── src/schemas/code_proposal.py ───────────────────────────────────────────────

inductive ChangeType where
  | create
  | modify
  | delete
  | rename
deriving DecidableEq

structure FileDiff where
  file_path : String
  change_type : ChangeType
  original_content_snippet : Option String
  proposed_content : String
  is_diff_format : Bool
  rationale : String
deriving DecidableEq

structure CodeProposal where
  ticket_id : String
  summary : String
  file_changes : List FileDiff
  new_dependencies : List String
  configuration_changes : List String
  migration_scripts : List String
  confidence_score : Rat
  caveats : List String
  raw_llm_response : Option String
deriving DecidableEq

-- ── src/schemas/test_suggestion.py ─────────────────────────────────────────────

inductive TestType where
  | unit
  | integration
  | contract
  | e2e
deriving DecidableEq

structure TestCase where
  test_name : String
  test_type : TestType
  target_function_or_class : String
  description : String
  arrange : String
  act : String
  assert_description : String
  edge_case : Bool
  mock_dependencies : List String
  sample_code : Option String
deriving DecidableEq

structure TestSuggestions where
  ticket_id : String
  framework : String
  suggested_test_file_paths : List String
  test_cases : List TestCase
  coverage_targets : List String
  test_fixtures_needed : List String
  confidence_score : Rat
  raw_llm_response : Option String
deriving DecidableEq

-- ── src/schemas/pr.py ──────────────────────────────────────────────────────────

inductive PRStatus where
  | created
  | failed
  | skipped
deriving DecidableEq

structure PRCompositionResult where
  ticket_id : String
  status : PRStatus
  pr_url : Option String
  pr_number : Option Int
  branch_name : Option String
  base_branch : String
  pr_title : String
  pr_body : String
  draft : Bool
  reviewers_requested : List String
  labels_applied : List String
  jira_ticket_linked : Bool
  error_message : Option String
  raw_mcp_output : Option String
deriving DecidableEq

-- ── src/schemas/workflow_state.py ──────────────────────────────────────────────

inductive WorkflowPhase where
  | fetching_ticket
  | checking_completeness
  | posting_clarification
  | scouting_repo
  | fetching_confluence_docs
  | planning
  | proposing_code
  | suggesting_tests
  | composing_pr
  | completed
  | failed
deriving DecidableEq

/-- The free-form dicts appended to `mcp_tool_calls` (key/value pairs,
values rendered as text). -/
def McpToolCall := List (String × String)
deriving DecidableEq

/-- WorkflowState from src/schemas/workflow_state.py.  The three audit
lists carry the `operator.add` (append) reducer in the source; all other
keys merge by overwrite-if-present.  The identity keys and `started_at`
are set once by `run_workflow` and returned by no node, so they are plain
fields here. -/
structure WorkflowState where
  run_id : String
  ticket_id : String
  started_at : Nat
  ticket_context : Option TicketContext
  completeness_result : Option CompletenessResult
  repo_context : Option RepoContext
  confluence_context : Option ConfluenceContext
  implementation_plan : Option ImplementationPlan
  code_proposal : Option CodeProposal
  test_suggestions : Option TestSuggestions
  pr_result : Option PRCompositionResult
  current_phase : WorkflowPhase
  is_complete_ticket : Option Bool
  should_stop : Bool
  errors : List String
  llm_call_ids : List String
  mcp_tool_calls : List McpToolCall
  completed_at : Option Nat
  total_llm_calls : Nat
  total_tokens_used : Nat
deriving DecidableEq

/-- A partial state update returned by one LangGraph node: `none` / `[]`
means the key is absent from the returned dict.  Mirrors the dicts the
node functions in src/agents return. -/
structure StageResult where
  ticket_context : Option TicketContext
  completeness_result : Option CompletenessResult
  repo_context : Option RepoContext
  confluence_context : Option ConfluenceContext
  implementation_plan : Option ImplementationPlan
  code_proposal : Option CodeProposal
  test_suggestions : Option TestSuggestions
  pr_result : Option PRCompositionResult
  current_phase : Option WorkflowPhase
  is_complete_ticket : Option Bool
  should_stop : Option Bool
  errors : List String
  llm_call_ids : List String
  mcp_tool_calls : List McpToolCall
  completed_at : Option Nat
  total_llm_calls : Option Nat
  total_tokens_used : Option Nat
deriving DecidableEq

/-- The update with every key absent. -/
def StageResult.empty : StageResult where
  ticket_context := none
  completeness_result := none
  repo_context := none
  confluence_context := none
  implementation_plan := none
  code_proposal := none
  test_suggestions := none
  pr_result := none
  current_phase := none
  is_complete_ticket := none
  should_stop := none
  errors := []
  llm_call_ids := []
  mcp_tool_calls := []
  completed_at := none
  total_llm_calls := none
  total_tokens_used := none

/-- Overwrite-if-present merge for one optional slot. -/
def mergeSlot (cur upd : Option α) : Option α :=
  match upd with
  | some v => some v
  | none => cur

/-- Overwrite-if-present merge for a plain scalar key. -/
def mergeField (cur : α) (upd : Option α) : α :=
  match upd with
  | some v => v
  | none => cur

/-- The LangGraph reducer: audit lists concatenate (`operator.add`),
every other key overwrites when present in the update. -/
def applyUpdate (s : WorkflowState) (u : StageResult) : WorkflowState where
  run_id := s.run_id
  ticket_id := s.ticket_id
  started_at := s.started_at
  ticket_context := mergeSlot s.ticket_context u.ticket_context
  completeness_result := mergeSlot s.completeness_result u.completeness_result
  repo_context := mergeSlot s.repo_context u.repo_context
  confluence_context := mergeSlot s.confluence_context u.confluence_context
  implementation_plan := mergeSlot s.implementation_plan u.implementation_plan
  code_proposal := mergeSlot s.code_proposal u.code_proposal
  test_suggestions := mergeSlot s.test_suggestions u.test_suggestions
  pr_result := mergeSlot s.pr_result u.pr_result
  current_phase := mergeField s.current_phase u.current_phase
  is_complete_ticket := mergeSlot s.is_complete_ticket u.is_complete_ticket
  should_stop := mergeField s.should_stop u.should_stop
  errors := s.errors ++ u.errors
  llm_call_ids := s.llm_call_ids ++ u.llm_call_ids
  mcp_tool_calls := s.mcp_tool_calls ++ u.mcp_tool_calls
  completed_at := mergeSlot s.completed_at u.completed_at
  total_llm_calls := mergeField s.total_llm_calls u.total_llm_calls
  total_tokens_used := mergeField s.total_tokens_used u.total_tokens_used

-- ── src/config/settings.py (the fields the embedded nodes read) ────────────────

structure Settings where
  completeness_threshold : Rat
  dry_run : Bool
  confluence_url : Option String
  confluence_space_keys_list : List String
  confluence_max_pages : Nat
  github_repo_owner : String
  github_repo_name : String
  repo_scout_max_files : Nat

/-- Python truthiness of an `Optional[str]`: `None` and the empty string
are falsy. -/
def optStrTruthy (s : Option String) : Bool :=
  match s with
  | none => false
  | some t => !t.isEmpty

-- ── src/agents/ticket_fetcher.py ───────────────────────────────────────────────

/-- fetch_ticket_node / TicketFetcherAgent.run.  The MCP fetch plus Jira
response parsing is an external call, modelled by its outcome: either the
parsed TicketContext or the text of the raised exception. -/
def fetch_ticket_node (fetch : Except String TicketContext)
    (state : WorkflowState) : StageResult :=
  match fetch with
  | .ok ticket_context =>
      { StageResult.empty with
          ticket_context := some ticket_context
          current_phase := some .checking_completeness
          mcp_tool_calls := [[("tool", "jira_get_issue"), ("ticket_id", state.ticket_id)]] }
  | .error exc =>
      { StageResult.empty with
          current_phase := some .failed
          errors := ["ticket_fetcher: " ++ exc]
          should_stop := some true }

-- ── src/agents/completeness_agent.py ───────────────────────────────────────────

/-- External-call outcomes of the completeness-check node: the structured
LLM invocation returns a parsed result (possibly None) with a call id, or
raises. -/
structure CompletenessEnv where
  llm : Except String (Option CompletenessResult × String)

/-- completeness_check_node / CompletenessAgent.run. -/
def completeness_check_node (cfg : Settings) (env : CompletenessEnv)
    (state : WorkflowState) : StageResult :=
  match state.ticket_context with
  | none =>
      { StageResult.empty with
          current_phase := some .failed
          errors := ["completeness_agent: ticket_context is None"]
          should_stop := some true }
  | some _ =>
      match env.llm with
      | .error exc =>
          { StageResult.empty with
              current_phase := some .failed
              errors := ["completeness_agent: " ++ exc]
              should_stop := some true }
      | .ok (none, _) =>
          { StageResult.empty with
              current_phase := some .failed
              errors := ["completeness_agent: LLM returned None for CompletenessResult"]
              should_stop := some true }
      | .ok (some result, call_id) =>
          let result := { result with ticket_id := state.ticket_id }
          let is_complete :=
            decide (result.completeness_score ≥ cfg.completeness_threshold)
              && decide (result.decision = CompletenessDecision.complete)
          { StageResult.empty with
              completeness_result := some result
              is_complete_ticket := some is_complete
              current_phase := some .checking_completeness
              llm_call_ids := [call_id]
              total_llm_calls := some (state.total_llm_calls + 1) }

/-- External-call outcomes of the clarification node: the Jira comment
post returns a comment id or None (or raises), the label update returns
nothing (or raises). -/
structure ClarificationEnv where
  comment : Except String (Option String)
  label : Except String Unit

/-- post_clarification_node / PostClarificationAgent.run. -/
def post_clarification_node (cfg : Settings) (env : ClarificationEnv)
    (state : WorkflowState) : StageResult :=
  match state.completeness_result with
  | none =>
      { StageResult.empty with
          current_phase := some .posting_clarification
          errors := ["post_clarification: completeness_result is None"] }
  | some completeness_result =>
      if cfg.dry_run then
        { StageResult.empty with current_phase := some .completed }
      else
        match env.comment with
        | .error exc =>
            { StageResult.empty with
                current_phase := some .posting_clarification
                errors := ["post_clarification: " ++ exc]
                completeness_result := some completeness_result }
        | .ok comment_id =>
            let cr :=
              if optStrTruthy comment_id then
                { completeness_result with
                    jira_comment_posted := true
                    jira_comment_id := comment_id }
              else completeness_result
            match env.label with
            | .error exc =>
                { StageResult.empty with
                    current_phase := some .posting_clarification
                    errors := ["post_clarification: " ++ exc]
                    completeness_result := some cr }
            | .ok _ =>
                { StageResult.empty with
                    completeness_result := some cr
                    current_phase := some .completed
                    mcp_tool_calls := [[("tool", "jira_add_comment"), ("ticket_id", state.ticket_id)]] }

-- ── src/agents/repo_scout_agent.py ─────────────────────────────────────────────

/-- External-call outcomes of the repo-scout node: `gather` is the GitHub
MCP data collection (directory summary, dependency content, file listing,
relevant paths), `llm` the structured analysis call. -/
structure RepoScoutEnv where
  gather : Except String (String × String × String × List String)
  llm : Except String (Option RepoContext × String)

/-- repo_scout_node / RepoScoutAgent.run. -/
def repo_scout_node (cfg : Settings) (env : RepoScoutEnv)
    (state : WorkflowState) : StageResult :=
  match state.ticket_context with
  | none =>
      { StageResult.empty with
          current_phase := some .failed
          errors := ["repo_scout: ticket_context is None"]
          should_stop := some true }
  | some _ =>
      match env.gather with
      | .error exc =>
          { StageResult.empty with
              current_phase := some .failed
              errors := ["repo_scout: " ++ exc]
              should_stop := some true }
      | .ok (dir_summary, _dep_content, _file_listing, relevant_paths) =>
          match env.llm with
          | .error exc =>
              { StageResult.empty with
                  current_phase := some .failed
                  errors := ["repo_scout: " ++ exc]
                  should_stop := some true }
          | .ok (none, _) =>
              { StageResult.empty with
                  current_phase := some .failed
                  errors := ["repo_scout: LLM returned None for RepoContext"]
                  should_stop := some true }
          | .ok (some result, call_id) =>
              let result :=
                { result with
                    repo_owner := cfg.github_repo_owner
                    repo_name := cfg.github_repo_name
                    directory_summary := dir_summary }
              { StageResult.empty with
                  repo_context := some result
                  current_phase := some .planning
                  llm_call_ids := [call_id]
                  total_llm_calls := some (state.total_llm_calls + 1)
                  mcp_tool_calls :=
                    [[("tool", "github_get_contents"),
                      ("paths", String.intercalate ", " relevant_paths)]] }

-- ── src/agents/confluence_agent.py ─────────────────────────────────────────────

/-- External-call outcomes of the Confluence node: `gather` yields the
count of pages retrieved with content, the search queries used, and the
total pages searched; `llm` the structured synthesis call. -/
structure ConfluenceEnv where
  gather : Except String (Nat × List String × Nat)
  llm : Except String (Option ConfluenceContext × String)

/-- confluence_agent_node / ConfluenceAgent.run. -/
def confluence_agent_node (cfg : Settings) (env : ConfluenceEnv)
    (state : WorkflowState) : StageResult :=
  match state.ticket_context with
  | none =>
      { StageResult.empty with
          current_phase := some .failed
          errors := ["confluence_agent: ticket_context is None"]
          should_stop := some true }
  | some _ =>
      if !optStrTruthy cfg.confluence_url then
        { StageResult.empty with
            confluence_context := some
              { pages_found := []
                total_pages_searched := 0
                search_queries_used := []
                summary := "Confluence not configured — no documentation context retrieved."
                doc_update_suggestions := [] }
            current_phase := some .planning }
      else
        match env.gather with
        | .error exc =>
            { StageResult.empty with
                current_phase := some .failed
                errors := ["confluence_agent: " ++ exc]
                should_stop := some true }
        | .ok (pages_retrieved, queries_used, total_searched) =>
            match env.llm with
            | .error exc =>
                { StageResult.empty with
                    current_phase := some .failed
                    errors := ["confluence_agent: " ++ exc]
                    should_stop := some true }
            | .ok (none, _) =>
                { StageResult.empty with
                    current_phase := some .failed
                    errors := ["confluence_agent: LLM returned None for ConfluenceContext"]
                    should_stop := some true }
            | .ok (some result, call_id) =>
                let result :=
                  { result with
                      total_pages_searched := total_searched
                      search_queries_used := queries_used }
                { StageResult.empty with
                    confluence_context := some result
                    current_phase := some .planning
                    llm_call_ids := [call_id]
                    total_llm_calls := some (state.total_llm_calls + 1)
                    mcp_tool_calls :=
                      [[("tool", "confluence_search"),
                        ("queries", String.intercalate ", " queries_used),
                        ("pages_retrieved", toString pages_retrieved)]] }

-- ── src/agents/planner_agent.py ────────────────────────────────────────────────

structure PlannerEnv where
  llm : Except String (Option ImplementationPlan × String)

/-- planner_node / PlannerAgent.run. -/
def planner_node (env : PlannerEnv) (state : WorkflowState) : StageResult :=
  if state.ticket_context.isNone || state.repo_context.isNone then
    { StageResult.empty with
        current_phase := some .failed
        errors := ["planner: missing ticket_context or repo_context"]
        should_stop := some true }
  else
    match env.llm with
    | .error exc =>
        { StageResult.empty with
            current_phase := some .failed
            errors := ["planner: " ++ exc]
            should_stop := some true }
    | .ok (none, _) =>
        { StageResult.empty with
            current_phase := some .failed
            errors := ["planner: LLM returned None for ImplementationPlan"]
            should_stop := some true }
    | .ok (some result, call_id) =>
        let result := { result with ticket_id := state.ticket_id }
        { StageResult.empty with
            implementation_plan := some result
            current_phase := some .proposing_code
            llm_call_ids := [call_id]
            total_llm_calls := some (state.total_llm_calls + 1) }

-- ── src/agents/code_proposal_agent.py ──────────────────────────────────────────

structure CodeProposalEnv where
  llm : Except String (Option CodeProposal × String)

/-- code_proposal_node / CodeProposalAgent.run. -/
def code_proposal_node (env : CodeProposalEnv) (state : WorkflowState) : StageResult :=
  if state.ticket_context.isNone || state.implementation_plan.isNone then
    { StageResult.empty with
        current_phase := some .failed
        errors := ["code_proposal: missing required state"]
        should_stop := some true }
  else
    match env.llm with
    | .error exc =>
        { StageResult.empty with
            current_phase := some .failed
            errors := ["code_proposal: " ++ exc]
            should_stop := some true }
    | .ok (none, _) =>
        { StageResult.empty with
            current_phase := some .failed
            errors := ["code_proposal: LLM returned None for CodeProposal"]
            should_stop := some true }
    | .ok (some result, call_id) =>
        let result := { result with ticket_id := state.ticket_id }
        { StageResult.empty with
            code_proposal := some result
            current_phase := some .suggesting_tests
            llm_call_ids := [call_id]
            total_llm_calls := some (state.total_llm_calls + 1) }

-- ── src/agents/test_agent.py ───────────────────────────────────────────────────

structure TestSuggestionEnv where
  llm : Except String (Option TestSuggestions × String)

/-- test_suggestion_node / TestAgent.run. -/
def test_suggestion_node (env : TestSuggestionEnv) (state : WorkflowState) : StageResult :=
  if state.ticket_context.isNone || state.implementation_plan.isNone then
    { StageResult.empty with
        current_phase := some .failed
        errors := ["test_agent: missing required state"]
        should_stop := some true }
  else
    match env.llm with
    | .error exc =>
        { StageResult.empty with
            current_phase := some .failed
            errors := ["test_agent: " ++ exc]
            should_stop := some true }
    | .ok (none, _) =>
        { StageResult.empty with
            current_phase := some .failed
            errors := ["test_agent: LLM returned None for TestSuggestions"]
            should_stop := some true }
    | .ok (some result, call_id) =>
        let result := { result with ticket_id := state.ticket_id }
        { StageResult.empty with
            test_suggestions := some result
            current_phase := some .composing_pr
            llm_call_ids := [call_id]
            total_llm_calls := some (state.total_llm_calls + 1) }

-- ── PR composer stage ──────────────────────────────────────────────────────────

structure PRComposerEnv where
  compose : Except String PRCompositionResult

/-- Modelled from the spec: agents/pr_composer_agent.py is imported by the
supervisor but its source is not under src/.  Per the uniform stage
contract (spec section 4.4) a stage populates its result slot on success
and on an expected failure returns a StageResult with current_phase set to
failed, should_stop set to true, and an errors entry carrying the stage
name followed by the failure text. -/
def pr_composer_node (env : PRComposerEnv) (_state : WorkflowState) : StageResult :=
  match env.compose with
  | .ok result =>
      { StageResult.empty with
          pr_result := some result
          current_phase := some .composing_pr }
  | .error exc =>
      { StageResult.empty with
          current_phase := some .failed
          errors := ["pr_composer: " ++ exc]
          should_stop := some true }

-- ── src/agents/supervisor.py ───────────────────────────────────────────────────

inductive RouteTarget where
  | post_clarification
  | repo_scout
deriving DecidableEq

/-- route_after_completeness: the single conditional edge of the graph.
Mirrors the Python truthiness tests on `should_stop` and the tri-state
`is_complete_ticket` (only `some true` is truthy). -/
def route_after_completeness (state : WorkflowState) : RouteTarget :=
  if state.should_stop then .post_clarification
  else if state.is_complete_ticket.getD false then .repo_scout
  else .post_clarification

/-- end_workflow_node: the terminal node records a completion timestamp
and overwrites the phase with COMPLETED. -/
def end_workflow_node (now : Nat) (_state : WorkflowState) : StageResult :=
  { StageResult.empty with
      current_phase := some .completed
      completed_at := some now }

/-- One record of every external-call outcome a single graph invocation
can consume, plus the settings and the terminal node's clock reading. -/
structure GraphEnv where
  settings : Settings
  fetch : Except String TicketContext
  completeness : CompletenessEnv
  clarification : ClarificationEnv
  repo_scout : RepoScoutEnv
  confluence : ConfluenceEnv
  planner : PlannerEnv
  code_proposal : CodeProposalEnv
  test_suggestion : TestSuggestionEnv
  pr_composer : PRComposerEnv
  end_now : Nat

/-- The compiled StateGraph of build_graph: START → fetch_ticket →
completeness_check, then the conditional edge, then either the
clarification branch or the sequential pipeline, both ending in
end_workflow.  Every node output is merged through the reducer. -/
def graph_invoke (env : GraphEnv) (s0 : WorkflowState) : WorkflowState :=
  let s1 := applyUpdate s0 (fetch_ticket_node env.fetch s0)
  let s2 := applyUpdate s1 (completeness_check_node env.settings env.completeness s1)
  match route_after_completeness s2 with
  | .post_clarification =>
      let s3 := applyUpdate s2 (post_clarification_node env.settings env.clarification s2)
      applyUpdate s3 (end_workflow_node env.end_now s3)
  | .repo_scout =>
      let s3 := applyUpdate s2 (repo_scout_node env.settings env.repo_scout s2)
      let s4 := applyUpdate s3 (confluence_agent_node env.settings env.confluence s3)
      let s5 := applyUpdate s4 (planner_node env.planner s4)
      let s6 := applyUpdate s5 (code_proposal_node env.code_proposal s5)
      let s7 := applyUpdate s6 (test_suggestion_node env.test_suggestion s6)
      let s8 := applyUpdate s7 (pr_composer_node env.pr_composer s7)
      applyUpdate s8 (end_workflow_node env.end_now s8)

/-- The initial WorkflowState built inside run_workflow. -/
def initial_state (run_id ticket_id : String) (started_at : Nat) : WorkflowState where
  run_id := run_id
  ticket_id := ticket_id
  started_at := started_at
  ticket_context := none
  completeness_result := none
  repo_context := none
  confluence_context := none
  implementation_plan := none
  code_proposal := none
  test_suggestions := none
  pr_result := none
  current_phase := .fetching_ticket
  is_complete_ticket := none
  should_stop := false
  errors := []
  llm_call_ids := []
  mcp_tool_calls := []
  completed_at := none
  total_llm_calls := 0
  total_tokens_used := 0

/-- Outcomes of the steps run_workflow performs around the graph: the
three pre-run persistence calls, the graph invocation itself, and the
finalize persistence call; `now` is the clock reading used for the
completion timestamp of the exception branch. -/
structure RunWorkflowEnv where
  init_db : Except String Unit
  create_run : Except String Unit
  mark_ticket_queued : Except String Unit
  invoke : Except String WorkflowState
  finalize_run : Except String Unit
  now : Nat

/-- run_workflow, the public entry point.  The generated uuid is the
`run_id` parameter.  init_db, create_run and mark_ticket_queued run
before the try block, so their exceptions propagate (`.error`); the graph
invocation is wrapped in try/except and converted to a FAILED state; the
finalize call is wrapped in its own try/except whose outcome never
changes the returned state. -/
def run_workflow (env : RunWorkflowEnv) (run_id ticket_id : String)
    (started_at : Nat) : Except String WorkflowState :=
  match env.init_db with
  | .error exc => .error exc
  | .ok _ =>
    match env.create_run with
    | .error exc => .error exc
    | .ok _ =>
      match env.mark_ticket_queued with
      | .error exc => .error exc
      | .ok _ =>
        let init := initial_state run_id ticket_id started_at
        let final_state :=
          match env.invoke with
          | .ok fs => fs
          | .error exc =>
              { init with
                  current_phase := .failed
                  errors := [exc]
                  completed_at := some env.now }
        match env.finalize_run with
        | .ok _ => .ok final_state
        | .error _ => .ok final_state

-- ── src/persistence/models.py ──────────────────────────────────────────────────

inductive RunStatus where
  | running
  | completed_complete
  | completed_incomplete
  | failed
deriving DecidableEq

inductive PROutcome where
  | pending
  | approved
  | rejected
  | merged
  | not_created
deriving DecidableEq

/-- TicketRun row.  DateTime columns are modelled by Nat, Float columns
holding exact scores/durations by Rat resp. Int, and the JSON snapshot
column by the snapshotted state itself (serialisation modelled as the
identity). -/
structure TicketRun where
  id : String
  ticket_id : String
  status : RunStatus
  started_at : Nat
  completed_at : Option Nat
  completeness_score : Option Rat
  ticket_deemed_incomplete : Option Bool
  clarification_comment_posted : Bool
  implementation_plan_generated : Bool
  code_proposal_generated : Bool
  tests_suggested : Bool
  pr_url : Option String
  pr_number : Option Int
  pr_branch : Option String
  pr_outcome : PROutcome
  total_duration_seconds : Option Int
  total_llm_calls : Nat
  total_tokens_used : Nat
  error_occurred : Bool
  error_phase : Option String
  error_message : Option String
  final_state_snapshot : Option WorkflowState
deriving DecidableEq

structure ProcessedTicket where
  ticket_id : String
  first_seen_at : Nat
  last_run_id : Option String
  reprocess_requested : Bool
deriving DecidableEq

structure TicketGroundTruth where
  ticket_id : String
  truly_incomplete : Bool
  labeled_by : Option String
  labeled_at : Nat
  notes : Option String
deriving DecidableEq

-- ── src/persistence/database.py and repository.py ──────────────────────────────

/-- The SQLite store: one association list per table, keyed by primary
key, in insertion order (`session.add` appends, `session.get` looks the
key up). -/
structure Database where
  ticket_runs : List (String × TicketRun)
  processed_tickets : List (String × ProcessedTicket)
  ground_truth : List (String × TicketGroundTruth)
deriving DecidableEq

/-- session.get: first row with the given primary key. -/
def lookupRow (k : String) : List (String × α) → Option α
  | [] => none
  | (k2, v) :: rest => if k2 = k then some v else lookupRow k rest

/-- In-place mutation of the row with the given primary key. -/
def updateAssoc (k : String) (v : α) : List (String × α) → List (String × α)
  | [] => []
  | (k2, w) :: rest =>
      if k2 = k then (k, v) :: updateAssoc k v rest
      else (k2, w) :: updateAssoc k v rest

namespace TicketRepository

/-- TicketRepository.is_ticket_processed. -/
def is_ticket_processed (db : Database) (ticket_id : String) : Bool :=
  match lookupRow ticket_id db.processed_tickets with
  | none => false
  | some row => !row.reprocess_requested

/-- TicketRepository.mark_ticket_queued; `now` is the datetime.utcnow()
reading used for a fresh marker. -/
def mark_ticket_queued (db : Database) (ticket_id run_id : String) (now : Nat) : Database :=
  match lookupRow ticket_id db.processed_tickets with
  | some existing =>
      let updated := { existing with last_run_id := some run_id, reprocess_requested := false }
      { db with processed_tickets := updateAssoc ticket_id updated db.processed_tickets }
  | none =>
      { db with processed_tickets :=
          db.processed_tickets ++
            [(ticket_id,
              { ticket_id := ticket_id
                first_seen_at := now
                last_run_id := some run_id
                reprocess_requested := false })] }

/-- TicketRepository.create_run: inserts a RUNNING row whose remaining
columns take their model defaults. -/
def create_run (db : Database) (run_id ticket_id : String) (now : Nat) : Database :=
  { db with ticket_runs :=
      db.ticket_runs ++
        [(run_id,
          { id := run_id
            ticket_id := ticket_id
            status := RunStatus.running
            started_at := now
            completed_at := none
            completeness_score := none
            ticket_deemed_incomplete := none
            clarification_comment_posted := false
            implementation_plan_generated := false
            code_proposal_generated := false
            tests_suggested := false
            pr_url := none
            pr_number := none
            pr_branch := none
            pr_outcome := PROutcome.not_created
            total_duration_seconds := none
            total_llm_calls := 0
            total_tokens_used := 0
            error_occurred := false
            error_phase := none
            error_message := none
            final_state_snapshot := none })] }

/-- TicketRepository.update_run: the kwargs-driven setattr loop is the
field update `f`; when no row has the given id the body is skipped and
the store is returned unchanged (no exception, no new row). -/
def update_run (db : Database) (run_id : String) (f : TicketRun → TicketRun) : Database :=
  match lookupRow run_id db.ticket_runs with
  | none => db
  | some run =>
      { db with ticket_runs := updateAssoc run_id (f run) db.ticket_runs }

/-- The textual form of a WorkflowPhase used for the error_phase column
(only its injectivity matters downstream). -/
def phase_str : WorkflowPhase → String
  | .fetching_ticket => "fetching_ticket"
  | .checking_completeness => "checking_completeness"
  | .posting_clarification => "posting_clarification"
  | .scouting_repo => "scouting_repo"
  | .fetching_confluence_docs => "fetching_confluence_docs"
  | .planning => "planning"
  | .proposing_code => "proposing_code"
  | .suggesting_tests => "suggesting_tests"
  | .composing_pr => "composing_pr"
  | .completed => "completed"
  | .failed => "failed"

/-- TicketRepository.finalize_run; `now` is the datetime.utcnow() reading
used for completed_at and the duration. -/
def finalize_run (db : Database) (run_id : String) (state : WorkflowState)
    (now : Nat) : Database :=
  let phase := state.current_phase
  let errors := state.errors
  let error_occurred := !errors.isEmpty
  let completeness := state.completeness_result
  let pr_result := state.pr_result
  let duration : Int := (now : Int) - (state.started_at : Int)
  let status :=
    if error_occurred then RunStatus.failed
    else if state.is_complete_ticket = some false then RunStatus.completed_incomplete
    else RunStatus.completed_complete
  let pr_url := match pr_result with | some r => r.pr_url | none => none
  let pr_number := match pr_result with | some r => r.pr_number | none => none
  let pr_branch := match pr_result with | some r => r.branch_name | none => none
  let pr_outcome :=
    match pr_result with
    | some r => if optStrTruthy r.pr_url then PROutcome.pending else PROutcome.not_created
    | none => PROutcome.not_created
  update_run db run_id fun run =>
    { run with
        status := status
        completed_at := some now
        completeness_score := completeness.map fun c => c.completeness_score
        ticket_deemed_incomplete :=
          completeness.map fun c => decide (c.decision = CompletenessDecision.incomplete)
        clarification_comment_posted :=
          (completeness.map fun c => c.jira_comment_posted).getD false
        implementation_plan_generated := state.implementation_plan.isSome
        code_proposal_generated := state.code_proposal.isSome
        tests_suggested := state.test_suggestions.isSome
        pr_url := pr_url
        pr_number := pr_number
        pr_branch := pr_branch
        pr_outcome := pr_outcome
        total_duration_seconds := some duration
        total_llm_calls := state.total_llm_calls
        total_tokens_used := state.total_tokens_used
        error_occurred := error_occurred
        error_phase := if error_occurred then some (phase_str phase) else none
        error_message :=
          if !errors.isEmpty then some (String.intercalate "; " errors) else none
        final_state_snapshot := some state }

/-- TicketRepository.set_pr_outcome, built on update_run. -/
def set_pr_outcome (db : Database) (run_id : String) (outcome : PROutcome) : Database :=
  update_run db run_id fun run => { run with pr_outcome := outcome }

end TicketRepository

-- ── src/metrics/poc_metrics.py ─────────────────────────────────────────────────

structure POCMetrics where
  total_prs_created : Nat
  total_prs_resolved : Nat
  total_prs_approved : Nat
  pr_approval_rate : Rat
  kpi1_met : Bool
  total_tickets_processed : Nat
  total_detected_incomplete : Nat
  total_ground_truth_incomplete : Nat
  true_positive_detections : Nat
  incomplete_detection_rate : Rat
  kpi2_met : Bool
  kpi2_note : String
  total_runs : Nat
  total_error_runs : Nat
  consecutive_error_free_runs : Nat
  kpi3_met : Bool
  average_duration_seconds : Option Rat
  average_tokens_per_run : Option Rat
  runs_complete_pipeline : Nat
  runs_flagged_incomplete : Nat
  computed_at : Nat
deriving DecidableEq

/-- The dataclass defaults of POCMetrics (computed_at comes from the
clock). -/
def POCMetrics.init (computed_at : Nat) : POCMetrics where
  total_prs_created := 0
  total_prs_resolved := 0
  total_prs_approved := 0
  pr_approval_rate := 0
  kpi1_met := false
  total_tickets_processed := 0
  total_detected_incomplete := 0
  total_ground_truth_incomplete := 0
  true_positive_detections := 0
  incomplete_detection_rate := 0
  kpi2_met := false
  kpi2_note := ""
  total_runs := 0
  total_error_runs := 0
  consecutive_error_free_runs := 0
  kpi3_met := false
  average_duration_seconds := none
  average_tokens_per_run := none
  runs_complete_pipeline := 0
  runs_flagged_incomplete := 0
  computed_at := computed_at

/-- POCMetricsCollector._compute_kpi2.  `runs` is the ticket_runs table,
`gts` the ticket_ground_truth table.  The aggregate count queries become
list filters; COUNT(DISTINCT tr.ticket_id) over the join becomes a dedup
of the ticket ids of the joined rows. -/
def compute_kpi2 (runs : List TicketRun) (gts : List TicketGroundTruth)
    (m : POCMetrics) : POCMetrics :=
  let m := { m with total_tickets_processed := runs.length }
  let detected := runs.filter fun (r : TicketRun) => r.ticket_deemed_incomplete == some true
  let m := { m with total_detected_incomplete := detected.length }
  let gt_incomplete := gts.filter fun (g : TicketGroundTruth) => g.truly_incomplete
  let m := { m with total_ground_truth_incomplete := gt_incomplete.length }
  let m :=
    if m.total_ground_truth_incomplete = 0 then
      { m with
          incomplete_detection_rate := 0
          kpi2_note :=
            "No ground-truth labels found. Use 'python -m metrics.label_ticket TICKET-ID --truly-incomplete' to add labels." }
    else
      let joined := runs.filter fun (r : TicketRun) =>
        r.ticket_deemed_incomplete == some true
          && gts.any fun (g : TicketGroundTruth) =>
               g.ticket_id == r.ticket_id && g.truly_incomplete
      let tp := (joined.map fun (r : TicketRun) => r.ticket_id).dedup.length
      { m with
          true_positive_detections := tp
          incomplete_detection_rate := (tp : Rat) / (m.total_ground_truth_incomplete : Rat)
          kpi2_note := "" }
  { m with kpi2_met := decide (m.incomplete_detection_rate ≥ (50 : Rat) / 100) }

/-- A run that keeps the KPI-3 streak alive. -/
def error_free_run (r : TicketRun) : Bool :=
  !r.error_occurred && !(r.status == RunStatus.failed)

/-- The `for run in reversed(runs): ... else break` loop of
_compute_kpi3, applied to the already-reversed list. -/
def trailing_error_free : List TicketRun → Nat
  | [] => 0
  | r :: rest => if error_free_run r then trailing_error_free rest + 1 else 0

/-- POCMetricsCollector._compute_kpi3.  `runs` is the ticket_runs table
in the order produced by the query, i.e. started_at ascending. -/
def compute_kpi3 (runs : List TicketRun) (m : POCMetrics) : POCMetrics :=
  let error_runs := runs.filter fun (r : TicketRun) =>
    r.error_occurred || r.status == RunStatus.failed
  let m :=
    { m with
        total_runs := runs.length
        total_error_runs := error_runs.length }
  let consecutive := trailing_error_free runs.reverse
  { m with
      consecutive_error_free_runs := consecutive
      kpi3_met := decide (consecutive ≥ 10) }

-- ── Store lemmas shared by the repository claims ───────────────────────────────

theorem lookupRow_updateAssoc_of_some {l : List (String × α)} {k : String} {w v : α}
    (h : lookupRow k l = some w) : lookupRow k (updateAssoc k v l) = some v := by
  induction l with
  | nil => simp [lookupRow] at h
  | cons p rest ih =>
    obtain ⟨k2, w2⟩ := p
    by_cases hk : k2 = k
    · subst hk
      simp [lookupRow, updateAssoc]
    · simp only [lookupRow, updateAssoc, hk, if_false, if_neg hk] at h ⊢
      exact ih h

theorem lookupRow_append_single_of_none {l : List (String × α)} {k : String} {v : α}
    (h : lookupRow k l = none) : lookupRow k (l ++ [(k, v)]) = some v := by
  induction l with
  | nil => simp [lookupRow]
  | cons p rest ih =>
    obtain ⟨k2, w2⟩ := p
    by_cases hk : k2 = k
    · simp [lookupRow, hk] at h
    · simp [lookupRow, hk] at h ⊢
      exact ih h

/-- After mark_ticket_queued the marker row for the ticket exists and
carries the given run id with the reprocess flag cleared. -/
theorem lookup_after_mark_ticket_queued (db : Database) (tid rid : String) (now : Nat) :
    ∃ row, lookupRow tid (TicketRepository.mark_ticket_queued db tid rid now).processed_tickets
        = some row ∧
      row.last_run_id = some rid ∧ row.reprocess_requested = false := by
  unfold TicketRepository.mark_ticket_queued
  cases h : lookupRow tid db.processed_tickets with
  | some existing =>
    exact ⟨_, lookupRow_updateAssoc_of_some h, rfl, rfl⟩
  | none =>
    exact ⟨_, lookupRow_append_single_of_none h, rfl, rfl⟩

-- ── C3 ─────────────────────────────────────────────────────────────────────────

/-- C3: routing after the completeness check obeys the decision order: a
true should_stop selects the clarification branch (also when
is_complete_ticket is simultaneously true, since is_complete_ticket is
not consulted); with should_stop false, is_complete_ticket = some true
selects the scouting branch and anything else (none or some false)
selects the clarification branch. -/
theorem route_after_completeness_decision_order (s : WorkflowState) :
    (s.should_stop = true → route_after_completeness s = RouteTarget.post_clarification) ∧
    (s.should_stop = false → s.is_complete_ticket = some true →
      route_after_completeness s = RouteTarget.repo_scout) ∧
    (s.should_stop = false → s.is_complete_ticket ≠ some true →
      route_after_completeness s = RouteTarget.post_clarification) := by
  unfold route_after_completeness
  refine ⟨fun h => by simp [h], fun h h2 => by simp [h, h2], fun h h2 => ?_⟩
  simp only [h, Bool.false_eq_true, if_false]
  cases h3 : s.is_complete_ticket with
  | none => simp
  | some b =>
    cases b with
    | false => simp
    | true => exact absurd h3 h2

/-- Witness for C3 at a concrete state with should_stop and
is_complete_ticket both true. -/
theorem route_after_completeness_decision_order_witness :
    route_after_completeness
      { initial_state "run-1" "PROJ-1" 0 with
          should_stop := true, is_complete_ticket := some true }
      = RouteTarget.post_clarification :=
  (route_after_completeness_decision_order _).1 rfl

-- ── C6 ─────────────────────────────────────────────────────────────────────────

/-- C6: queueing the same ticket twice with distinct run ids leaves the
ticket marked processed, the marker's last run id equal to the second
call's id, and the reprocess flag cleared. -/
theorem mark_ticket_queued_idempotent_dedup (db : Database) (tid r1 r2 : String)
    (n1 n2 : Nat) (hne : r1 ≠ r2) :
    TicketRepository.is_ticket_processed
      (TicketRepository.mark_ticket_queued
        (TicketRepository.mark_ticket_queued db tid r1 n1) tid r2 n2) tid = true ∧
    ∃ row,
      lookupRow tid
        (TicketRepository.mark_ticket_queued
          (TicketRepository.mark_ticket_queued db tid r1 n1) tid r2 n2).processed_tickets
        = some row ∧
      row.last_run_id = some r2 ∧ row.reprocess_requested = false := by
  obtain ⟨row, hlook, hlast, hrep⟩ :=
    lookup_after_mark_ticket_queued (TicketRepository.mark_ticket_queued db tid r1 n1) tid r2 n2
  constructor
  · unfold TicketRepository.is_ticket_processed
    rw [hlook]
    simp [hrep]
  · exact ⟨row, hlook, hlast, hrep⟩

/-- Witness for C6 on an initially empty store with run ids run-1 then
run-2. -/
theorem mark_ticket_queued_idempotent_dedup_witness :
    ("run-1" : String) ≠ "run-2" ∧
    (TicketRepository.is_ticket_processed
      (TicketRepository.mark_ticket_queued
        (TicketRepository.mark_ticket_queued ⟨[], [], []⟩ "PROJ-1" "run-1" 0)
        "PROJ-1" "run-2" 1) "PROJ-1" = true ∧
    ∃ row,
      lookupRow "PROJ-1"
        (TicketRepository.mark_ticket_queued
          (TicketRepository.mark_ticket_queued ⟨[], [], []⟩ "PROJ-1" "run-1" 0)
          "PROJ-1" "run-2" 1).processed_tickets
        = some row ∧
      row.last_run_id = some "run-2" ∧ row.reprocess_requested = false) :=
  ⟨by decide,
   mark_ticket_queued_idempotent_dedup ⟨[], [], []⟩ "PROJ-1" "run-1" "run-2" 0 1 (by decide)⟩

-- ── C10 ────────────────────────────────────────────────────────────────────────

/-- C10: when no run row with the given id exists, update_run — and with
it finalize_run and set_pr_outcome, which are built on it — returns the
store unchanged: no row is created and, the functions being total, no
exception is raised. -/
theorem update_run_missing_run_noop (db : Database) (rid : String)
    (f : TicketRun → TicketRun) (state : WorkflowState) (now : Nat) (o : PROutcome)
    (h : lookupRow rid db.ticket_runs = none) :
    TicketRepository.update_run db rid f = db ∧
    TicketRepository.finalize_run db rid state now = db ∧
    TicketRepository.set_pr_outcome db rid o = db := by
  refine ⟨?_, ?_, ?_⟩ <;>
    simp [TicketRepository.update_run, TicketRepository.finalize_run,
      TicketRepository.set_pr_outcome, h]

/-- Witness for C10 on the empty store. -/
theorem update_run_missing_run_noop_witness :
    TicketRepository.update_run ⟨[], [], []⟩ "run-404" (fun r => r) = ⟨[], [], []⟩ ∧
    TicketRepository.finalize_run ⟨[], [], []⟩ "run-404" (initial_state "run-404" "PROJ-1" 0) 9
      = ⟨[], [], []⟩ ∧
    TicketRepository.set_pr_outcome ⟨[], [], []⟩ "run-404" PROutcome.merged = ⟨[], [], []⟩ :=
  update_run_missing_run_noop ⟨[], [], []⟩ "run-404" (fun r => r)
    (initial_state "run-404" "PROJ-1" 0) 9 PROutcome.merged rfl

-- ── C9 ─────────────────────────────────────────────────────────────────────────

/-- C9: a raising finalize write is non-fatal — when the pre-run
persistence steps succeed and the graph invocation produced final state
fs, run_workflow still returns fs unchanged even though finalize_run
raised. -/
theorem finalize_failure_nonfatal (env : RunWorkflowEnv) (rid tid : String) (t0 : Nat)
    (fs : WorkflowState) (e : String)
    (h1 : env.init_db = .ok ()) (h2 : env.create_run = .ok ())
    (h3 : env.mark_ticket_queued = .ok ()) (h4 : env.invoke = .ok fs)
    (h5 : env.finalize_run = .error e) :
    run_workflow env rid tid t0 = .ok fs := by
  unfold run_workflow
  rw [h1, h2, h3, h4, h5]

/-- Witness for C9 with a concrete environment whose finalize step
raises. -/
theorem finalize_failure_nonfatal_witness :
    run_workflow
      ⟨.ok (), .ok (), .ok (), .ok (initial_state "run-1" "PROJ-1" 0), .error "disk full", 7⟩
      "run-1" "PROJ-1" 0
      = .ok (initial_state "run-1" "PROJ-1" 0) :=
  finalize_failure_nonfatal _ "run-1" "PROJ-1" 0 _ "disk full" rfl rfl rfl rfl rfl

-- ── C2 ─────────────────────────────────────────────────────────────────────────

/-- Whatever happens inside a graph invocation, the terminal node runs
last and overwrites the phase with COMPLETED. -/
theorem graph_invoke_phase (env : GraphEnv) (s : WorkflowState) :
    (graph_invoke env s).current_phase = WorkflowPhase.completed := by
  unfold graph_invoke
  dsimp only
  split <;> rfl

/-- C2 as amended: when the three pre-run persistence steps succeed and
the graph invocation either returns (its result being a graph_invoke
value) or raises, run_workflow returns a state with a terminal phase
(completed or failed) and never lets the exception escape.  (The
unamended claim fails: an exception in the pre-run persistence steps
escapes, see the counterexample.) -/
theorem run_workflow_terminal_state (env : RunWorkflowEnv) (g : GraphEnv)
    (rid tid : String) (t0 : Nat)
    (h1 : env.init_db = .ok ()) (h2 : env.create_run = .ok ())
    (h3 : env.mark_ticket_queued = .ok ())
    (h4 : env.invoke = .ok (graph_invoke g (initial_state rid tid t0)) ∨
      ∃ e, env.invoke = .error e) :
    ∃ fs, run_workflow env rid tid t0 = Except.ok fs ∧
      (fs.current_phase = WorkflowPhase.completed ∨
        fs.current_phase = WorkflowPhase.failed) := by
  rcases h4 with h4 | ⟨e, h4⟩
  · simp only [run_workflow, h1, h2, h3, h4]
    cases h5 : env.finalize_run with
    | ok u => exact ⟨_, rfl, Or.inl (graph_invoke_phase g _)⟩
    | error e2 => exact ⟨_, rfl, Or.inl (graph_invoke_phase g _)⟩
  · simp only [run_workflow, h1, h2, h3, h4]
    cases h5 : env.finalize_run with
    | ok u => exact ⟨_, rfl, Or.inr rfl⟩
    | error e2 => exact ⟨_, rfl, Or.inr rfl⟩

/-- Counterexample to C2 as stated: a raising create_run persistence step
sits before the try block, so its exception escapes run_workflow instead
of being converted into a failed RunState. -/
theorem run_workflow_exception_escape_cex :
    run_workflow
      ⟨.ok (), .error "database is locked", .ok (),
        .ok (initial_state "run-1" "PROJ-1" 0), .ok (), 0⟩
      "run-1" "PROJ-1" 0
      = .error "database is locked" := rfl

/-- Witness for C2 (amended) at a concrete environment whose graph
invocation raises. -/
theorem run_workflow_terminal_state_witness :
    ∃ fs,
      run_workflow ⟨.ok (), .ok (), .ok (), .error "boom", .ok (), 3⟩ "run-1" "PROJ-1" 0
        = Except.ok fs ∧
      (fs.current_phase = WorkflowPhase.completed ∨
        fs.current_phase = WorkflowPhase.failed) :=
  run_workflow_terminal_state ⟨.ok (), .ok (), .ok (), .error "boom", .ok (), 3⟩
    ⟨⟨0, false, none, [], 5, "owner", "repo", 30⟩, .error "x", ⟨.error "x"⟩,
      ⟨.error "x", .error "x"⟩, ⟨.error "x", .error "x"⟩, ⟨.error "x", .error "x"⟩,
      ⟨.error "x"⟩, ⟨.error "x"⟩, ⟨.error "x"⟩, ⟨.error "x"⟩, 0⟩
    "run-1" "PROJ-1" 0 rfl rfl rfl (Or.inr ⟨"boom", rfl⟩)

-- ── C1 ─────────────────────────────────────────────────────────────────────────

/-- A concrete graph environment whose ticket fetch raises; the other
external calls are never reached on this path. -/
def fetch_failed_env : GraphEnv where
  settings :=
    { completeness_threshold := (7 : Rat) / 10
      dry_run := false
      confluence_url := none
      confluence_space_keys_list := []
      confluence_max_pages := 5
      github_repo_owner := "owner"
      github_repo_name := "repo"
      repo_scout_max_files := 30 }
  fetch := .error "Ticket TEST-1 not found via JQL search"
  completeness := ⟨.error "unused"⟩
  clarification := ⟨.error "unused", .error "unused"⟩
  repo_scout := ⟨.error "unused", .error "unused"⟩
  confluence := ⟨.error "unused", .error "unused"⟩
  planner := ⟨.error "unused"⟩
  code_proposal := ⟨.error "unused"⟩
  test_suggestion := ⟨.error "unused"⟩
  pr_composer := ⟨.error "unused"⟩
  end_now := 100

/-- Counterexample to C1 as stated: with a failing first stage the final
state's phase is COMPLETED (the terminal node overwrites FAILED) rather
than failed, and the errors list holds three entries rather than exactly
one. -/
theorem first_stage_failure_claim_cex :
    (graph_invoke fetch_failed_env (initial_state "run-1" "TEST-1" 0)).current_phase
        = WorkflowPhase.completed ∧
    (graph_invoke fetch_failed_env (initial_state "run-1" "TEST-1" 0)).errors.length = 3 :=
  ⟨rfl, rfl⟩

/-- C1 as amended: when the first stage (ticket fetch) fails, the final
state has should_stop = true and no later stage's result slot populated,
its errors list holds exactly three entries — the failing stage's
(prefixed with that stage's name) plus one appended by the
completeness-check stage and one by the clarification stage — and
current_phase ends as COMPLETED because the terminal node overwrites the
FAILED phase. -/
theorem first_stage_failure_run_outcome (env : GraphEnv) (e rid tid : String) (t0 : Nat)
    (h : env.fetch = .error e) :
    (graph_invoke env (initial_state rid tid t0)).should_stop = true ∧
    (graph_invoke env (initial_state rid tid t0)).errors =
      ["ticket_fetcher: " ++ e,
       "completeness_agent: ticket_context is None",
       "post_clarification: completeness_result is None"] ∧
    (graph_invoke env (initial_state rid tid t0)).current_phase = WorkflowPhase.completed ∧
    (graph_invoke env (initial_state rid tid t0)).ticket_context = none ∧
    (graph_invoke env (initial_state rid tid t0)).completeness_result = none ∧
    (graph_invoke env (initial_state rid tid t0)).repo_context = none ∧
    (graph_invoke env (initial_state rid tid t0)).confluence_context = none ∧
    (graph_invoke env (initial_state rid tid t0)).implementation_plan = none ∧
    (graph_invoke env (initial_state rid tid t0)).code_proposal = none ∧
    (graph_invoke env (initial_state rid tid t0)).test_suggestions = none ∧
    (graph_invoke env (initial_state rid tid t0)).pr_result = none := by
  simp [graph_invoke, fetch_ticket_node, completeness_check_node, post_clarification_node,
    end_workflow_node, applyUpdate, mergeSlot, mergeField, route_after_completeness,
    initial_state, StageResult.empty, h]

/-- Witness for C1 (amended) at the concrete failing-fetch environment. -/
theorem first_stage_failure_run_outcome_witness :
    (graph_invoke fetch_failed_env (initial_state "run-1" "TEST-1" 0)).should_stop = true ∧
    (graph_invoke fetch_failed_env (initial_state "run-1" "TEST-1" 0)).errors =
      ["ticket_fetcher: Ticket TEST-1 not found via JQL search",
       "completeness_agent: ticket_context is None",
       "post_clarification: completeness_result is None"] ∧
    (graph_invoke fetch_failed_env (initial_state "run-1" "TEST-1" 0)).current_phase
        = WorkflowPhase.completed ∧
    (graph_invoke fetch_failed_env (initial_state "run-1" "TEST-1" 0)).ticket_context = none ∧
    (graph_invoke fetch_failed_env (initial_state "run-1" "TEST-1" 0)).completeness_result = none ∧
    (graph_invoke fetch_failed_env (initial_state "run-1" "TEST-1" 0)).repo_context = none ∧
    (graph_invoke fetch_failed_env (initial_state "run-1" "TEST-1" 0)).confluence_context = none ∧
    (graph_invoke fetch_failed_env (initial_state "run-1" "TEST-1" 0)).implementation_plan = none ∧
    (graph_invoke fetch_failed_env (initial_state "run-1" "TEST-1" 0)).code_proposal = none ∧
    (graph_invoke fetch_failed_env (initial_state "run-1" "TEST-1" 0)).test_suggestions = none ∧
    (graph_invoke fetch_failed_env (initial_state "run-1" "TEST-1" 0)).pr_result = none :=
  first_stage_failure_run_outcome fetch_failed_env
    "Ticket TEST-1 not found via JQL search" "run-1" "TEST-1" 0 rfl

-- ── C4 ─────────────────────────────────────────────────────────────────────────

/-- C4: finalize_run persists the status classification of the claim:
failed when the final state's errors list is non-empty, else
completed_incomplete when its is_complete flag is exactly false, else
completed_complete. -/
theorem finalize_run_status_classification (db : Database) (rid : String)
    (state : WorkflowState) (now : Nat) (run : TicketRun)
    (h : lookupRow rid db.ticket_runs = some run) :
    ∃ run2,
      lookupRow rid (TicketRepository.finalize_run db rid state now).ticket_runs = some run2 ∧
      run2.status =
        (if state.errors ≠ [] then RunStatus.failed
         else if state.is_complete_ticket = some false then RunStatus.completed_incomplete
         else RunStatus.completed_complete) := by
  simp only [TicketRepository.finalize_run, TicketRepository.update_run, h]
  refine ⟨_, lookupRow_updateAssoc_of_some h, ?_⟩
  cases herr : state.errors with
  | nil => simp
  | cons a t => simp

/-- Witness for C4: a store holding one freshly created run, finalized
with a state carrying one error. -/
theorem finalize_run_status_classification_witness :
    ∃ run2,
      lookupRow "run-1"
        (TicketRepository.finalize_run
          (TicketRepository.create_run ⟨[], [], []⟩ "run-1" "PROJ-1" 0)
          "run-1"
          { initial_state "run-1" "PROJ-1" 0 with errors := ["ticket_fetcher: boom"] }
          9).ticket_runs = some run2 ∧
      run2.status =
        (if ({ initial_state "run-1" "PROJ-1" 0 with
                errors := ["ticket_fetcher: boom"] } : WorkflowState).errors ≠ [] then
            RunStatus.failed
         else if ({ initial_state "run-1" "PROJ-1" 0 with
                errors := ["ticket_fetcher: boom"] } : WorkflowState).is_complete_ticket
              = some false then
            RunStatus.completed_incomplete
         else RunStatus.completed_complete) :=
  finalize_run_status_classification
    (TicketRepository.create_run ⟨[], [], []⟩ "run-1" "PROJ-1" 0) "run-1"
    { initial_state "run-1" "PROJ-1" 0 with errors := ["ticket_fetcher: boom"] } 9 _ rfl

-- ── C8 ─────────────────────────────────────────────────────────────────────────

/-- True positives in the claim's sense: tickets flagged incomplete by
the system whose ground-truth label marks them truly incomplete, each
ticket counted once. -/
def true_positive_tickets (runs : List TicketRun) (gts : List TicketGroundTruth) : Nat :=
  ((runs.filter fun (r : TicketRun) =>
      r.ticket_deemed_incomplete == some true
        && gts.any fun (g : TicketGroundTruth) =>
             g.ticket_id == r.ticket_id && g.truly_incomplete).map
    fun (r : TicketRun) => r.ticket_id).dedup.length

/-- C8: the KPI-2 computation is a total function (no exception), and
with zero ground-truth-incomplete labels it reports rate 0 with a
non-empty explanatory note, while with at least one label it reports
true positives divided by the ground-truth-incomplete label count. -/
theorem kpi2_detection_rate (runs : List TicketRun) (gts : List TicketGroundTruth)
    (m : POCMetrics) :
    ((gts.filter fun (g : TicketGroundTruth) => g.truly_incomplete).length = 0 →
      (compute_kpi2 runs gts m).incomplete_detection_rate = 0 ∧
      (compute_kpi2 runs gts m).kpi2_note ≠ "") ∧
    (0 < (gts.filter fun (g : TicketGroundTruth) => g.truly_incomplete).length →
      (compute_kpi2 runs gts m).incomplete_detection_rate =
        (true_positive_tickets runs gts : Rat) /
          ((gts.filter fun (g : TicketGroundTruth) => g.truly_incomplete).length : Rat) ∧
      (compute_kpi2 runs gts m).true_positive_detections = true_positive_tickets runs gts) := by
  constructor
  · intro h0
    refine ⟨?_, ?_⟩ <;> simp [compute_kpi2, h0]
  · intro hpos
    have h0 : ¬(gts.filter fun (g : TicketGroundTruth) => g.truly_incomplete).length = 0 :=
      Nat.pos_iff_ne_zero.mp hpos
    refine ⟨?_, ?_⟩ <;> simp [compute_kpi2, true_positive_tickets, h0]

/-- Witness for C8: the zero-label branch on an empty store and the
labeled branch on a one-run, one-label store. -/
theorem kpi2_detection_rate_witness :
    (((([] : List TicketGroundTruth).filter
        fun (g : TicketGroundTruth) => g.truly_incomplete).length = 0 →
      (compute_kpi2 [] [] (POCMetrics.init 0)).incomplete_detection_rate = 0 ∧
      (compute_kpi2 [] [] (POCMetrics.init 0)).kpi2_note ≠ "") ∧
    (0 < (([] : List TicketGroundTruth).filter
        fun (g : TicketGroundTruth) => g.truly_incomplete).length →
      (compute_kpi2 [] [] (POCMetrics.init 0)).incomplete_detection_rate =
        (true_positive_tickets [] [] : Rat) /
          ((([] : List TicketGroundTruth).filter
            fun (g : TicketGroundTruth) => g.truly_incomplete).length : Rat) ∧
      (compute_kpi2 [] [] (POCMetrics.init 0)).true_positive_detections
        = true_positive_tickets [] [])) ∧
    (compute_kpi2 [] [] (POCMetrics.init 0)).incomplete_detection_rate = 0 ∧
    (compute_kpi2 [] [] (POCMetrics.init 0)).kpi2_note ≠ "" :=
  ⟨kpi2_detection_rate [] [] (POCMetrics.init 0),
   (kpi2_detection_rate [] [] (POCMetrics.init 0)).1 rfl⟩

-- ── C7 ─────────────────────────────────────────────────────────────────────────

theorem trailing_eq_takeWhile (l : List TicketRun) :
    trailing_error_free l = (l.takeWhile error_free_run).length := by
  induction l with
  | nil => rfl
  | cons r rest ih =>
    by_cases hr : error_free_run r
    · simp [trailing_error_free, List.takeWhile_cons, hr, ih]
    · simp [trailing_error_free, List.takeWhile_cons, hr]

theorem take_takeWhile_length (p : α → Bool) (l : List α) :
    l.take (l.takeWhile p).length = l.takeWhile p := by
  obtain ⟨t, ht⟩ := @List.takeWhile_prefix _ l p
  have h := @List.take_left' _ (l.takeWhile p) t (l.takeWhile p).length rfl
  rw [ht] at h
  exact h

theorem le_takeWhile_length_of_all (p : α → Bool) :
    ∀ (l : List α) (n : Nat), n ≤ l.length → (∀ a ∈ l.take n, p a) →
      n ≤ (l.takeWhile p).length := by
  intro l
  induction l with
  | nil => intro n hn _; simpa using hn
  | cons a rest ih =>
    intro n hn hall
    cases n with
    | zero => exact Nat.zero_le _
    | succ m =>
      have hpa : p a := hall a (by simp)
      have hrest : ∀ b ∈ rest.take m, p b = true := fun b hb => hall b (by simp [hb])
      rw [List.takeWhile_cons, if_pos hpa]
      simpa using ih m (by simpa using hn) hrest

/-- Sample run rows for the KPI-3 scenario. -/
def kpi3_run (rid : String) (t : Nat) (had_error : Bool) : TicketRun where
  id := rid
  ticket_id := "PROJ-1"
  status := if had_error then RunStatus.failed else RunStatus.completed_complete
  started_at := t
  completed_at := some (t + 1)
  completeness_score := none
  ticket_deemed_incomplete := none
  clarification_comment_posted := false
  implementation_plan_generated := false
  code_proposal_generated := false
  tests_suggested := false
  pr_url := none
  pr_number := none
  pr_branch := none
  pr_outcome := PROutcome.not_created
  total_duration_seconds := none
  total_llm_calls := 0
  total_tokens_used := 0
  error_occurred := had_error
  error_phase := none
  error_message := none
  final_state_snapshot := none

/-- The KPI-3 scenario table: outcomes [failed, ok, ok, ok] in start-time
ascending order. -/
def kpi3_example_runs : List TicketRun :=
  [kpi3_run "r1" 0 true, kpi3_run "r2" 1 false, kpi3_run "r3" 2 false, kpi3_run "r4" 3 false]

/-- C7: with the run table in start-time ascending order, the KPI-3
streak is the length of the longest error-free suffix — every run in the
last streak positions is error-free, and no longer suffix is all
error-free — the threshold flag holds exactly when the streak reaches 10,
and on the scenario table [failed, ok, ok, ok] the streak is 3. -/
theorem kpi3_trailing_error_free_streak (runs : List TicketRun) (m : POCMetrics)
    (hsorted : List.Sorted (fun a b => a.started_at ≤ b.started_at) runs) :
    (compute_kpi3 runs m).consecutive_error_free_runs ≤ runs.length ∧
    (∀ r ∈ runs.drop (runs.length - (compute_kpi3 runs m).consecutive_error_free_runs),
      error_free_run r) ∧
    (∀ n ≤ runs.length,
      (∀ r ∈ runs.drop (runs.length - n), error_free_run r) →
        n ≤ (compute_kpi3 runs m).consecutive_error_free_runs) ∧
    ((compute_kpi3 runs m).kpi3_met = true ↔
      (compute_kpi3 runs m).consecutive_error_free_runs ≥ 10) ∧
    (compute_kpi3 kpi3_example_runs (POCMetrics.init 0)).consecutive_error_free_runs = 3 := by
  have hstreak : (compute_kpi3 runs m).consecutive_error_free_runs
      = (runs.reverse.takeWhile error_free_run).length := by
    simp [compute_kpi3, trailing_eq_takeWhile]
  refine ⟨?_, ?_, ?_, ?_, by decide⟩
  · rw [hstreak]
    calc (runs.reverse.takeWhile error_free_run).length
        ≤ runs.reverse.length := (List.takeWhile_prefix _).length_le
      _ = runs.length := List.length_reverse _
  · intro r hr
    rw [hstreak] at hr
    have h1 : r ∈ (runs.drop
        (runs.length - (runs.reverse.takeWhile error_free_run).length)).reverse := by
      simpa using hr
    rw [← List.take_reverse] at h1
    rw [take_takeWhile_length] at h1
    exact List.mem_takeWhile_imp h1
  · intro n hn hall
    rw [hstreak]
    refine le_takeWhile_length_of_all error_free_run runs.reverse n
      (by simpa using hn) ?_
    intro a ha
    rw [List.take_reverse] at ha
    exact hall a (by simpa using ha)
  · rw [hstreak]
    simp [compute_kpi3, trailing_eq_takeWhile]

/-- Witness for C7 on the scenario table itself. -/
theorem kpi3_trailing_error_free_streak_witness :
    (compute_kpi3 kpi3_example_runs (POCMetrics.init 0)).consecutive_error_free_runs
        ≤ kpi3_example_runs.length ∧
    (∀ r ∈ kpi3_example_runs.drop (kpi3_example_runs.length -
        (compute_kpi3 kpi3_example_runs (POCMetrics.init 0)).consecutive_error_free_runs),
      error_free_run r) ∧
    (∀ n ≤ kpi3_example_runs.length,
      (∀ r ∈ kpi3_example_runs.drop (kpi3_example_runs.length - n), error_free_run r) →
        n ≤ (compute_kpi3 kpi3_example_runs (POCMetrics.init 0)).consecutive_error_free_runs) ∧
    ((compute_kpi3 kpi3_example_runs (POCMetrics.init 0)).kpi3_met = true ↔
      (compute_kpi3 kpi3_example_runs (POCMetrics.init 0)).consecutive_error_free_runs ≥ 10) ∧
    (compute_kpi3 kpi3_example_runs (POCMetrics.init 0)).consecutive_error_free_runs = 3 :=
  kpi3_trailing_error_free_streak kpi3_example_runs (POCMetrics.init 0) (by decide)

-- ── C5 ─────────────────────────────────────────────────────────────────────────

/-- An update is an output of one of the pipeline's stage functions
(pr_composer modelled from the spec, see pr_composer_node). -/
def IsStageOutput (u : StageResult) : Prop :=
  (∃ f s, u = fetch_ticket_node f s) ∨
  (∃ cfg env s, u = completeness_check_node cfg env s) ∨
  (∃ cfg env s, u = post_clarification_node cfg env s) ∨
  (∃ cfg env s, u = repo_scout_node cfg env s) ∨
  (∃ cfg env s, u = confluence_agent_node cfg env s) ∨
  (∃ env s, u = planner_node env s) ∨
  (∃ env s, u = code_proposal_node env s) ∨
  (∃ env s, u = test_suggestion_node env s) ∨
  (∃ env s, u = pr_composer_node env s) ∨
  (∃ n s, u = end_workflow_node n s)

/-- No stage ever emits should_stop = false: every stage output leaves
the key absent or sets it to true. -/
theorem stage_output_keeps_stop (u : StageResult) (h : IsStageOutput u) :
    u.should_stop ≠ some false := by
  rcases h with ⟨f, s, rfl⟩ | ⟨cfg, env, s, rfl⟩ | ⟨cfg, env, s, rfl⟩ | ⟨cfg, env, s, rfl⟩ |
    ⟨cfg, env, s, rfl⟩ | ⟨env, s, rfl⟩ | ⟨env, s, rfl⟩ | ⟨env, s, rfl⟩ | ⟨env, s, rfl⟩ |
    ⟨n, s, rfl⟩
  · unfold fetch_ticket_node
    (repeat' split) <;> simp [StageResult.empty]
  · unfold completeness_check_node
    (repeat' split) <;> simp [StageResult.empty]
  · unfold post_clarification_node
    (repeat' split) <;> simp [StageResult.empty]
  · unfold repo_scout_node
    (repeat' split) <;> simp [StageResult.empty]
  · unfold confluence_agent_node
    (repeat' split) <;> simp [StageResult.empty]
  · unfold planner_node
    (repeat' split) <;> simp [StageResult.empty]
  · unfold code_proposal_node
    (repeat' split) <;> simp [StageResult.empty]
  · unfold test_suggestion_node
    (repeat' split) <;> simp [StageResult.empty]
  · unfold pr_composer_node
    (repeat' split) <;> simp [StageResult.empty]
  · unfold end_workflow_node
    simp [StageResult.empty]

/-- Folding stage outputs through the reducer preserves a true
should_stop. -/
theorem foldl_keeps_stop (us : List StageResult) :
    ∀ s : WorkflowState, s.should_stop = true → (∀ u ∈ us, IsStageOutput u) →
      (us.foldl applyUpdate s).should_stop = true := by
  induction us with
  | nil => intro s hs _; simpa using hs
  | cons u rest ih =>
    intro s hs hall
    have hu := stage_output_keeps_stop u (hall u (by simp))
    have hs2 : (applyUpdate s u).should_stop = true := by
      show mergeField s.should_stop u.should_stop = true
      unfold mergeField
      cases h : u.should_stop with
      | none => exact hs
      | some b =>
        cases b with
        | false => exact absurd h hu
        | true => rfl
    exact ih (applyUpdate s u) hs2 (fun v hv => hall v (by simp [hv]))

/-- C5: should_stop is sticky-true under the reducer for the program's
stage outputs — starting from any merged state with should_stop = true,
every later merged state (any number of further stage outputs folded in)
still has should_stop = true, and the routing decision on any such state
short-circuits the remaining pipeline stages by selecting the
clarification branch. -/
theorem should_stop_sticky_true (s : WorkflowState) (us : List StageResult)
    (hs : s.should_stop = true) (hus : ∀ u ∈ us, IsStageOutput u) :
    (∀ n, ((us.take n).foldl applyUpdate s).should_stop = true) ∧
    route_after_completeness (us.foldl applyUpdate s) = RouteTarget.post_clarification := by
  have hmain : ∀ n, ((us.take n).foldl applyUpdate s).should_stop = true := fun n =>
    foldl_keeps_stop (us.take n) s hs (fun u hu => hus u (List.take_subset n us hu))
  refine ⟨hmain, ?_⟩
  have h2 : (us.foldl applyUpdate s).should_stop = true := foldl_keeps_stop us s hs hus
  unfold route_after_completeness
  simp [h2]

/-- Witness for C5: a stopped state followed by a failing planner output
and the terminal node's output. -/
theorem should_stop_sticky_true_witness :
    (∀ n, (([planner_node ⟨.error "llm timeout"⟩ (initial_state "run-1" "PROJ-1" 0),
              end_workflow_node 9 (initial_state "run-1" "PROJ-1" 0)].take n).foldl applyUpdate
        { initial_state "run-1" "PROJ-1" 0 with should_stop := true }).should_stop = true) ∧
    route_after_completeness
      ([planner_node ⟨.error "llm timeout"⟩ (initial_state "run-1" "PROJ-1" 0),
        end_workflow_node 9 (initial_state "run-1" "PROJ-1" 0)].foldl applyUpdate
        { initial_state "run-1" "PROJ-1" 0 with should_stop := true })
      = RouteTarget.post_clarification :=
  should_stop_sticky_true
    { initial_state "run-1" "PROJ-1" 0 with should_stop := true }
    [planner_node ⟨.error "llm timeout"⟩ (initial_state "run-1" "PROJ-1" 0),
     end_workflow_node 9 (initial_state "run-1" "PROJ-1" 0)]
    rfl
    (by
      intro u hu
      simp only [List.mem_cons, List.not_mem_nil, or_false] at hu
      rcases hu with rfl | rfl
      · exact Or.inr (Or.inr (Or.inr (Or.inr (Or.inr (Or.inl
          ⟨⟨.error "llm timeout"⟩, initial_state "run-1" "PROJ-1" 0, rfl⟩)))))
      · exact Or.inr (Or.inr (Or.inr (Or.inr (Or.inr (Or.inr (Or.inr (Or.inr (Or.inr
          ⟨9, initial_state "run-1" "PROJ-1" 0, rfl⟩)))))))))

end AgenticSDLC
